import Mathlib

/-
Verification of the submariner-addon deployment status controller
(package submarineragent, deploymentStatusController) against its
natural-language specification.

The sync pass of the controller reads a Subscription, several Deployments,
two DaemonSets and a Submariner configuration resource from listers,
collects degraded (reason, message) signal pairs, synthesizes one
composite condition and publishes it.  We embed the pass as a pure
function over a snapshot of those reads.
-/

namespace SubmarinerAgent

/-- Result of one lister read: the Go `(obj, err)` pair where `err` is either
nil, a not-found error (`errors.IsNotFound`), or some other error. -/
inductive GetResult (α : Type) where
  | ok (a : α)
  | notFound
  | err (e : String)
deriving DecidableEq

/-- True when the read failed with an error other than not-found. -/
def GetResult.isErr {α : Type} : GetResult α → Bool
  | .err _ => true
  | _ => false

/-- The fields of an OLM Subscription that the controller reads. -/
structure Subscription where
  installedCSV : String
  startingCSV : String
  channel : String
  catalogSourceNamespace : String
  catalogSource : String
deriving DecidableEq

/-- The field of an apps/v1 Deployment status that the controller reads. -/
structure Deployment where
  availableReplicas : Int
deriving DecidableEq

/-- The fields of an apps/v1 DaemonSet status that the controller reads. -/
structure DaemonSet where
  desiredNumberScheduled : Int
  numberUnavailable : Int
deriving DecidableEq

/-- The fields of the Submariner configuration resource that the controller
reads. -/
structure Submariner where
  globalCIDR : String
  networkPlugin : String
deriving DecidableEq

/-- metav1.Condition as constructed by sync: Type, Status (true =
ConditionTrue), Reason, Message. -/
structure Condition where
  type : String
  status : Bool
  reason : String
  message : String
deriving DecidableEq

def subscriptionName : String := "submariner"

def operatorName : String := "submariner-operator"

def gatewayName : String := "submariner-gateway"

def routeAgentName : String := "submariner-routeagent"

def globalnetName : String := "submariner-globalnet"

def networkPluginSyncerName : String := "submariner-networkplugin-syncer"

def lighthouseAgentName : String := "submariner-lighthouse-agent"

def lighthouseCoreDNSName : String := "submariner-lighthouse-coredns"

def networkPluginOVNKubernetes : String := "OVNKubernetes"

def submarinerAgentDegraded : String := "SubmarinerAgentDegraded"

/-- Go strings.Join: empty list gives "", a singleton gives its element,
otherwise the elements separated by `sep`. -/
def goJoin (sep : String) : List String → String
  | [] => ""
  | [x] => x
  | x :: y :: xs => x ++ sep ++ goJoin sep (y :: xs)

/-- The strings.ReplaceAll(name, "-", " ") call: the pattern is the
single character "-", so every dash of the string is replaced by a space. -/
def replaceDashes (s : String) : String :=
  String.mk (s.data.map fun c => if c = '-' then ' ' else c)

/-- One snapshot of everything the sync pass reads: the Subscription in the
installation namespace, deployments and daemonsets by name in that namespace,
and the Submariner resource for the queue key. -/
structure ResourceView where
  subscription : GetResult Subscription
  deployments : String → GetResult Deployment
  daemonSets : String → GetResult DaemonSet
  submariner : GetResult Submariner

/-- deploymentStatusController.checkDeployment: look up the named deployment;
not found appends a No<reasonName>Deployment signal, zero available replicas
appends a No<reasonName>Available signal, any other read error aborts. -/
def checkDeployment (v : ResourceView) (name reasonName : String)
    (degradedConditionReasons degradedConditionMessages : List String) :
    Except String (List String × List String) :=
  let msgName := replaceDashes name
  match v.deployments name with
  | .notFound =>
      Except.ok (degradedConditionReasons ++ ["No" ++ reasonName ++ "Deployment"],
        degradedConditionMessages ++ ["The " ++ msgName ++ " deployment does not exist"])
  | .ok deployment =>
      if deployment.availableReplicas == 0 then
        Except.ok (degradedConditionReasons ++ ["No" ++ reasonName ++ "Available"],
          degradedConditionMessages ++ ["There are no " ++ msgName ++ " replica available"])
      else
        Except.ok (degradedConditionReasons, degradedConditionMessages)
  | .err e => Except.error e

/-- deploymentStatusController.checkDeployments: the three required
deployments in order operator, lighthouse agent, lighthouse coreDNS. -/
def checkDeployments (v : ResourceView)
    (degradedConditionReasons degradedConditionMessages : List String) :
    Except String (List String × List String) :=
  match checkDeployment v operatorName "Operator"
      degradedConditionReasons degradedConditionMessages with
  | .error e => Except.error e
  | .ok (r1, m1) =>
    match checkDeployment v lighthouseAgentName "LighthouseAgent" r1 m1 with
    | .error e => Except.error e
    | .ok (r2, m2) =>
      match checkDeployment v lighthouseCoreDNSName "LighthouseCoreDNS" r2 m2 with
      | .error e => Except.error e
      | .ok (r3, m3) => Except.ok (r3, m3)

/-- deploymentStatusController.checkGatewayDaemonSet: not found appends
NoGatewayDaemonSet; otherwise zero desired-scheduled appends
NoScheduledGateways and non-zero unavailable appends GatewaysUnavailable
(both may fire); any other read error aborts. -/
def checkGatewayDaemonSet (v : ResourceView)
    (degradedConditionReasons degradedConditionMessages : List String) :
    Except String (List String × List String) :=
  match v.daemonSets gatewayName with
  | .notFound =>
      Except.ok (degradedConditionReasons ++ ["NoGatewayDaemonSet"],
        degradedConditionMessages ++ ["The gateway daemon set does not exist"])
  | .ok gateways =>
      let (r1, m1) :=
        if gateways.desiredNumberScheduled == 0 then
          (degradedConditionReasons ++ ["NoScheduledGateways"],
           degradedConditionMessages ++ ["There are no nodes to run the gateways"])
        else
          (degradedConditionReasons, degradedConditionMessages)
      let (r2, m2) :=
        if gateways.numberUnavailable != 0 then
          (r1 ++ ["GatewaysUnavailable"],
           m1 ++ ["There are " ++ toString gateways.numberUnavailable ++ " unavailable gateways"])
        else
          (r1, m1)
      Except.ok (r2, m2)
  | .err e => Except.error e

/-- deploymentStatusController.checkRouteAgentDaemonSet: not found appends
NoRouteAgentDaemonSet; non-zero unavailable appends RouteAgentsUnavailable;
any other read error aborts. -/
def checkRouteAgentDaemonSet (v : ResourceView)
    (degradedConditionReasons degradedConditionMessages : List String) :
    Except String (List String × List String) :=
  match v.daemonSets routeAgentName with
  | .notFound =>
      Except.ok (degradedConditionReasons ++ ["NoRouteAgentDaemonSet"],
        degradedConditionMessages ++ ["The route agents are not found"])
  | .ok routeAgent =>
      if routeAgent.numberUnavailable != 0 then
        Except.ok (degradedConditionReasons ++ ["RouteAgentsUnavailable"],
          degradedConditionMessages ++
            ["There are " ++ toString routeAgent.numberUnavailable ++ " unavailable route agents"])
      else
        Except.ok (degradedConditionReasons, degradedConditionMessages)
  | .err e => Except.error e

/-- deploymentStatusController.checkDaemonSets: gateway then route agent. -/
def checkDaemonSets (v : ResourceView)
    (degradedConditionReasons degradedConditionMessages : List String) :
    Except String (List String × List String) :=
  match checkGatewayDaemonSet v degradedConditionReasons degradedConditionMessages with
  | .error e => Except.error e
  | .ok (r1, m1) =>
    match checkRouteAgentDaemonSet v r1 m1 with
    | .error e => Except.error e
    | .ok (r2, m2) => Except.ok (r2, m2)

/-- deploymentStatusController.checkOptionalDeployments: the Globalnet check
runs only when Spec.GlobalCIDR is non-empty, the NetworkPluginSyncer check
only when Status.NetworkPlugin is OVNKubernetes. -/
def checkOptionalDeployments (v : ResourceView) (submariner : Submariner)
    (degradedConditionReasons degradedConditionMessages : List String) :
    Except String (List String × List String) :=
  match (if submariner.globalCIDR != "" then
      checkDeployment v globalnetName "Globalnet"
        degradedConditionReasons degradedConditionMessages
    else
      Except.ok (degradedConditionReasons, degradedConditionMessages)) with
  | .error e => Except.error e
  | .ok (r1, m1) =>
    if submariner.networkPlugin == networkPluginOVNKubernetes then
      checkDeployment v networkPluginSyncerName "NetworkPluginSyncer" r1 m1
    else
      Except.ok (r1, m1)

/-- Lines 137-148 of sync: the default healthy condition (status False,
reason SubmarinerAgentDeployed, message naming the installed CSV) is
replaced by the degraded condition exactly when the reason list is
non-empty. -/
def synthesizeCondition (installedCSV : String)
    (degradedConditionReasons degradedConditionMessages : List String) : Condition :=
  let c : Condition :=
    { type := submarinerAgentDegraded
      status := false
      reason := "SubmarinerAgentDeployed"
      message := "Submariner (" ++ installedCSV ++ ") is deployed on managed cluster." }
  if degradedConditionReasons.length != 0 then
    { c with
      status := true
      reason := goJoin "," degradedConditionReasons
      message := goJoin "\n" degradedConditionMessages }
  else
    c

/-- deploymentStatusController.sync.  The result is `Except.error e` when the
Go method returns a non-nil error, `Except.ok none` when it returns nil
without reaching the status update (silent exit), and `Except.ok (some c)`
when it reaches addon.UpdateStatus with condition `c` (the publish call). -/
def sync (v : ResourceView) : Except String (Option Condition) :=
  match v.subscription with
  | .notFound => Except.ok none
  | .err e => Except.error e
  | .ok sub =>
    let degradedConditionReasons : List String := []
    let degradedConditionMessages : List String := []
    let (degradedConditionReasons, degradedConditionMessages) :=
      if sub.installedCSV == "" then
        let startingCSV := if sub.startingCSV == "" then "default" else sub.startingCSV
        let channel := if sub.channel == "" then "default" else sub.channel
        (degradedConditionReasons ++ ["CSVNotInstalled"],
         degradedConditionMessages ++
           ["The submariner-operator CSV (" ++ startingCSV ++ ") is not installed from channel (" ++
             channel ++ ") in catalog source (" ++ sub.catalogSourceNamespace ++ "/" ++
             sub.catalogSource ++ ")"])
      else
        (degradedConditionReasons, degradedConditionMessages)
    match checkDeployments v degradedConditionReasons degradedConditionMessages with
    | .error e => Except.error e
    | .ok (r1, m1) =>
      match checkDaemonSets v r1 m1 with
      | .error e => Except.error e
      | .ok (r2, m2) =>
        match v.submariner with
        | .notFound => Except.ok none
        | .err e => Except.error e
        | .ok submariner =>
          match checkOptionalDeployments v submariner r2 m2 with
          | .error e => Except.error e
          | .ok (r3, m3) =>
            Except.ok (some (synthesizeCondition sub.installedCSV r3 m3))

/-- Pointwise concatenation of (reasons, messages) pairs. -/
def pairApp (a b : List String × List String) : List String × List String :=
  (a.1 ++ b.1, a.2 ++ b.2)

/-- The signal pair one checkDeployment call appends (empty on a hard read
error, which aborts instead). -/
def deploymentDelta (res : GetResult Deployment) (name reasonName : String) :
    List String × List String :=
  match res with
  | .notFound =>
      (["No" ++ reasonName ++ "Deployment"],
       ["The " ++ replaceDashes name ++ " deployment does not exist"])
  | .ok deployment =>
      if deployment.availableReplicas == 0 then
        (["No" ++ reasonName ++ "Available"],
         ["There are no " ++ replaceDashes name ++ " replica available"])
      else
        ([], [])
  | .err _ => ([], [])

/-- The signal pair the gateway daemonset check appends. -/
def gatewayDelta (res : GetResult DaemonSet) : List String × List String :=
  match res with
  | .notFound => (["NoGatewayDaemonSet"], ["The gateway daemon set does not exist"])
  | .ok gateways =>
      ((if gateways.desiredNumberScheduled == 0 then ["NoScheduledGateways"] else []) ++
        (if gateways.numberUnavailable != 0 then ["GatewaysUnavailable"] else []),
       (if gateways.desiredNumberScheduled == 0 then ["There are no nodes to run the gateways"] else []) ++
        (if gateways.numberUnavailable != 0 then
          ["There are " ++ toString gateways.numberUnavailable ++ " unavailable gateways"]
        else []))
  | .err _ => ([], [])

/-- The signal pair the route-agent daemonset check appends. -/
def routeAgentDelta (res : GetResult DaemonSet) : List String × List String :=
  match res with
  | .notFound => (["NoRouteAgentDaemonSet"], ["The route agents are not found"])
  | .ok routeAgent =>
      if routeAgent.numberUnavailable != 0 then
        (["RouteAgentsUnavailable"],
         ["There are " ++ toString routeAgent.numberUnavailable ++ " unavailable route agents"])
      else
        ([], [])
  | .err _ => ([], [])

/-- The signal pair the Subscription install check appends. -/
def csvDelta (sub : Subscription) : List String × List String :=
  if sub.installedCSV == "" then
    (["CSVNotInstalled"],
     ["The submariner-operator CSV (" ++
       (if sub.startingCSV == "" then "default" else sub.startingCSV) ++
       ") is not installed from channel (" ++
       (if sub.channel == "" then "default" else sub.channel) ++
       ") in catalog source (" ++ sub.catalogSourceNamespace ++ "/" ++ sub.catalogSource ++ ")"])
  else
    ([], [])

/-- The signal pair the conditional checks append. -/
def optionalDelta (v : ResourceView) (submariner : Submariner) :
    List String × List String :=
  pairApp
    (if submariner.globalCIDR != "" then
      deploymentDelta (v.deployments globalnetName) globalnetName "Globalnet"
    else ([], []))
    (if submariner.networkPlugin == networkPluginOVNKubernetes then
      deploymentDelta (v.deployments networkPluginSyncerName) networkPluginSyncerName
        "NetworkPluginSyncer"
    else ([], []))

/-- The full signal pair of one completed pass, in pipeline order. -/
def totalDelta (v : ResourceView) (sub : Subscription) (submariner : Submariner) :
    List String × List String :=
  pairApp (csvDelta sub)
    (pairApp (deploymentDelta (v.deployments operatorName) operatorName "Operator")
      (pairApp (deploymentDelta (v.deployments lighthouseAgentName) lighthouseAgentName
          "LighthouseAgent")
        (pairApp (deploymentDelta (v.deployments lighthouseCoreDNSName) lighthouseCoreDNSName
            "LighthouseCoreDNS")
          (pairApp (gatewayDelta (v.daemonSets gatewayName))
            (pairApp (routeAgentDelta (v.daemonSets routeAgentName))
              (optionalDelta v submariner))))))

/-- Spec section 4.1, step 1: reason code of the Subscription install check. -/
def specSubscriptionReasons (sub : Subscription) : List String :=
  if sub.installedCSV == "" then ["CSVNotInstalled"] else []

/-- Spec section 4.1, step 2: reason codes of one required deployment check,
not found giving No<Name>Deployment, zero available replicas No<Name>Available. -/
def specDeploymentReasons (res : GetResult Deployment) (name : String) : List String :=
  match res with
  | .notFound => ["No" ++ name ++ "Deployment"]
  | .ok deployment =>
      if deployment.availableReplicas == 0 then ["No" ++ name ++ "Available"] else []
  | .err _ => []

/-- Spec section 4.1, step 3: reason codes of the gateway daemonset check. -/
def specGatewayReasons (res : GetResult DaemonSet) : List String :=
  match res with
  | .notFound => ["NoGatewayDaemonSet"]
  | .ok gateways =>
      (if gateways.desiredNumberScheduled == 0 then ["NoScheduledGateways"] else []) ++
        (if gateways.numberUnavailable != 0 then ["GatewaysUnavailable"] else [])
  | .err _ => []

/-- Spec section 4.1, step 4: reason codes of the route-agent daemonset check. -/
def specRouteAgentReasons (res : GetResult DaemonSet) : List String :=
  match res with
  | .notFound => ["NoRouteAgentDaemonSet"]
  | .ok routeAgent =>
      if routeAgent.numberUnavailable != 0 then ["RouteAgentsUnavailable"] else []
  | .err _ => []

/-- Spec section 4.1, step 5: reason codes of the conditional checks, gated on
the global CIDR of the configuration resource and network plugin fields. -/
def specConditionalReasons (v : ResourceView) (submariner : Submariner) : List String :=
  (if submariner.globalCIDR != "" then
    specDeploymentReasons (v.deployments globalnetName) "Globalnet"
  else []) ++
    (if submariner.networkPlugin == networkPluginOVNKubernetes then
      specDeploymentReasons (v.deployments networkPluginSyncerName) "NetworkPluginSyncer"
    else [])

/-- The fixed pipeline order of spec section 4.1: subscription install check,
then the required deployments operator, lighthouse agent, lighthouse coreDNS,
then the gateway and route-agent daemonsets, then the conditional checks. -/
def specPipelineReasons (v : ResourceView) (sub : Subscription)
    (submariner : Submariner) : List String :=
  specSubscriptionReasons sub ++
    specDeploymentReasons (v.deployments operatorName) "Operator" ++
    specDeploymentReasons (v.deployments lighthouseAgentName) "LighthouseAgent" ++
    specDeploymentReasons (v.deployments lighthouseCoreDNSName) "LighthouseCoreDNS" ++
    specGatewayReasons (v.daemonSets gatewayName) ++
    specRouteAgentReasons (v.daemonSets routeAgentName) ++
    specConditionalReasons v submariner

/-- A Subscription with an installed CSV. -/
def healthySub : Subscription :=
  { installedCSV := "submariner.v0.8.1"
    startingCSV := ""
    channel := "alpha"
    catalogSourceNamespace := "openshift-marketplace"
    catalogSource := "redhat-operators" }

/-- A Submariner resource with no global CIDR and a non-OVN network plugin. -/
def plainSubmariner : Submariner :=
  { globalCIDR := "", networkPlugin := "generic" }

/-- A snapshot where every resource is present and available. -/
def healthyView : ResourceView :=
  { subscription := .ok healthySub
    deployments := fun _ => .ok { availableReplicas := 1 }
    daemonSets := fun _ => .ok { desiredNumberScheduled := 1, numberUnavailable := 0 }
    submariner := .ok plainSubmariner }

/-- The healthy snapshot with the Subscription missing. -/
def missingSubView : ResourceView :=
  { healthyView with subscription := .notFound }

/-- The healthy snapshot with the Submariner resource missing. -/
def missingSubmarinerView : ResourceView :=
  { healthyView with submariner := .notFound }

/-- The healthy snapshot with the operator deployment missing and the
lighthouse agent deployment present but with zero available replicas. -/
def degradedView : ResourceView :=
  { healthyView with
    deployments := fun name =>
      if name == operatorName then .notFound
      else if name == lighthouseAgentName then .ok { availableReplicas := 0 }
      else .ok { availableReplicas := 1 } }

/-- A Subscription with no installed CSV, no starting CSV and no channel. -/
def uninstalledSub : Subscription :=
  { installedCSV := ""
    startingCSV := ""
    channel := ""
    catalogSourceNamespace := "openshift-marketplace"
    catalogSource := "redhat-operators" }

/-- The healthy snapshot with an uninstalled Subscription (empty installed
CSV, empty starting CSV and channel). -/
def noCSVView : ResourceView :=
  { healthyView with subscription := .ok uninstalledSub }

/-- The healthy snapshot with a hard read error on the lighthouse coreDNS
deployment, after degraded signals were already collected (the operator
deployment is missing). -/
def errMidView : ResourceView :=
  { healthyView with
    deployments := fun name =>
      if name == operatorName then .notFound
      else if name == lighthouseCoreDNSName then .err "boom"
      else .ok { availableReplicas := 1 } }

/-- The healthy snapshot with a gateway daemonset that has zero desired
scheduled pods and one unavailable pod. -/
def gatewayTroubleView : ResourceView :=
  { healthyView with
    daemonSets := fun name =>
      if name == gatewayName then .ok { desiredNumberScheduled := 0, numberUnavailable := 1 }
      else .ok { desiredNumberScheduled := 1, numberUnavailable := 0 } }

/-- A Submariner resource with no global CIDR but the OVNKubernetes plugin. -/
def ovnSubmariner : Submariner :=
  { globalCIDR := "", networkPlugin := "OVNKubernetes" }

/-- A snapshot where both conditional deployments are missing. -/
def noOptionalView : ResourceView :=
  { healthyView with
    deployments := fun name =>
      if name == globalnetName then .notFound
      else if name == networkPluginSyncerName then .notFound
      else .ok { availableReplicas := 1 } }

theorem checkDeployment_delta (v : ResourceView) (name reasonName : String)
    (h : (v.deployments name).isErr = false) (r m : List String) :
    checkDeployment v name reasonName r m =
      Except.ok (r ++ (deploymentDelta (v.deployments name) name reasonName).1,
        m ++ (deploymentDelta (v.deployments name) name reasonName).2) := by
  cases hres : v.deployments name with
  | ok deployment =>
      by_cases hz : deployment.availableReplicas == 0 <;>
        simp [checkDeployment, deploymentDelta, hres, hz]
  | notFound => simp [checkDeployment, deploymentDelta, hres]
  | err e => rw [hres] at h; simp [GetResult.isErr] at h

theorem checkDeployment_err (v : ResourceView) (name reasonName : String)
    (e : String) (h : v.deployments name = .err e) (r m : List String) :
    checkDeployment v name reasonName r m = Except.error e := by
  simp [checkDeployment, h]

theorem checkGatewayDaemonSet_delta (v : ResourceView)
    (h : (v.daemonSets gatewayName).isErr = false) (r m : List String) :
    checkGatewayDaemonSet v r m =
      Except.ok (r ++ (gatewayDelta (v.daemonSets gatewayName)).1,
        m ++ (gatewayDelta (v.daemonSets gatewayName)).2) := by
  cases hres : v.daemonSets gatewayName with
  | ok gateways =>
      by_cases h1 : gateways.desiredNumberScheduled == 0 <;>
        by_cases h2 : gateways.numberUnavailable != 0 <;>
          simp [checkGatewayDaemonSet, gatewayDelta, hres, h1, h2]
  | notFound => simp [checkGatewayDaemonSet, gatewayDelta, hres]
  | err e => rw [hres] at h; simp [GetResult.isErr] at h

theorem checkGatewayDaemonSet_err (v : ResourceView) (e : String)
    (h : v.daemonSets gatewayName = .err e) (r m : List String) :
    checkGatewayDaemonSet v r m = Except.error e := by
  simp [checkGatewayDaemonSet, h]

theorem checkRouteAgentDaemonSet_delta (v : ResourceView)
    (h : (v.daemonSets routeAgentName).isErr = false) (r m : List String) :
    checkRouteAgentDaemonSet v r m =
      Except.ok (r ++ (routeAgentDelta (v.daemonSets routeAgentName)).1,
        m ++ (routeAgentDelta (v.daemonSets routeAgentName)).2) := by
  cases hres : v.daemonSets routeAgentName with
  | ok routeAgent =>
      by_cases h1 : routeAgent.numberUnavailable != 0 <;>
        simp [checkRouteAgentDaemonSet, routeAgentDelta, hres, h1]
  | notFound => simp [checkRouteAgentDaemonSet, routeAgentDelta, hres]
  | err e => rw [hres] at h; simp [GetResult.isErr] at h

theorem checkRouteAgentDaemonSet_err (v : ResourceView) (e : String)
    (h : v.daemonSets routeAgentName = .err e) (r m : List String) :
    checkRouteAgentDaemonSet v r m = Except.error e := by
  simp [checkRouteAgentDaemonSet, h]

theorem checkDeployments_delta (v : ResourceView)
    (hop : (v.deployments operatorName).isErr = false)
    (hag : (v.deployments lighthouseAgentName).isErr = false)
    (hcore : (v.deployments lighthouseCoreDNSName).isErr = false)
    (r m : List String) :
    checkDeployments v r m =
      Except.ok
        (r ++ (deploymentDelta (v.deployments operatorName) operatorName "Operator").1 ++
          (deploymentDelta (v.deployments lighthouseAgentName) lighthouseAgentName
            "LighthouseAgent").1 ++
          (deploymentDelta (v.deployments lighthouseCoreDNSName) lighthouseCoreDNSName
            "LighthouseCoreDNS").1,
         m ++ (deploymentDelta (v.deployments operatorName) operatorName "Operator").2 ++
          (deploymentDelta (v.deployments lighthouseAgentName) lighthouseAgentName
            "LighthouseAgent").2 ++
          (deploymentDelta (v.deployments lighthouseCoreDNSName) lighthouseCoreDNSName
            "LighthouseCoreDNS").2) := by
  simp [checkDeployments, checkDeployment_delta v _ _ hop,
    checkDeployment_delta v _ _ hag, checkDeployment_delta v _ _ hcore]

theorem checkDaemonSets_delta (v : ResourceView)
    (hgw : (v.daemonSets gatewayName).isErr = false)
    (hra : (v.daemonSets routeAgentName).isErr = false)
    (r m : List String) :
    checkDaemonSets v r m =
      Except.ok
        (r ++ (gatewayDelta (v.daemonSets gatewayName)).1 ++
          (routeAgentDelta (v.daemonSets routeAgentName)).1,
         m ++ (gatewayDelta (v.daemonSets gatewayName)).2 ++
          (routeAgentDelta (v.daemonSets routeAgentName)).2) := by
  simp [checkDaemonSets, checkGatewayDaemonSet_delta v hgw,
    checkRouteAgentDaemonSet_delta v hra]

theorem checkOptionalDeployments_delta (v : ResourceView) (submariner : Submariner)
    (hgn : submariner.globalCIDR ≠ "" → (v.deployments globalnetName).isErr = false)
    (hnps : submariner.networkPlugin = networkPluginOVNKubernetes →
      (v.deployments networkPluginSyncerName).isErr = false)
    (r m : List String) :
    checkOptionalDeployments v submariner r m =
      Except.ok (r ++ (optionalDelta v submariner).1, m ++ (optionalDelta v submariner).2) := by
  by_cases hc : submariner.globalCIDR = ""
  · by_cases hp : submariner.networkPlugin = networkPluginOVNKubernetes
    · simp [checkOptionalDeployments, optionalDelta, pairApp, hc, hp,
        checkDeployment_delta v _ _ (hnps hp)]
    · simp [checkOptionalDeployments, optionalDelta, pairApp, hc, hp]
  · by_cases hp : submariner.networkPlugin = networkPluginOVNKubernetes
    · simp [checkOptionalDeployments, optionalDelta, pairApp, hc, hp,
        checkDeployment_delta v _ _ (hgn hc), checkDeployment_delta v _ _ (hnps hp)]
    · simp [checkOptionalDeployments, optionalDelta, pairApp, hc, hp,
        checkDeployment_delta v _ _ (hgn hc)]

theorem sync_complete (v : ResourceView) (sub : Subscription) (submariner : Submariner)
    (hsub : v.subscription = .ok sub)
    (hsm : v.submariner = .ok submariner)
    (hop : (v.deployments operatorName).isErr = false)
    (hag : (v.deployments lighthouseAgentName).isErr = false)
    (hcore : (v.deployments lighthouseCoreDNSName).isErr = false)
    (hgw : (v.daemonSets gatewayName).isErr = false)
    (hra : (v.daemonSets routeAgentName).isErr = false)
    (hgn : submariner.globalCIDR ≠ "" → (v.deployments globalnetName).isErr = false)
    (hnps : submariner.networkPlugin = networkPluginOVNKubernetes →
      (v.deployments networkPluginSyncerName).isErr = false) :
    sync v =
      Except.ok (some (synthesizeCondition sub.installedCSV
        (totalDelta v sub submariner).1 (totalDelta v sub submariner).2)) := by
  by_cases hcsv : sub.installedCSV = "" <;>
    simp [sync, hsub, hsm, hcsv,
      checkDeployments_delta v hop hag hcore,
      checkDaemonSets_delta v hgw hra,
      checkOptionalDeployments_delta v submariner hgn hnps,
      totalDelta, csvDelta, pairApp, List.append_assoc]

theorem goJoin_cons_of_ne (sep x : String) (xs : List String) (h : xs ≠ []) :
    goJoin sep (x :: xs) = x ++ sep ++ goJoin sep xs := by
  cases xs with
  | nil => exact absurd rfl h
  | cons y ys => rfl

theorem goJoin_head (sep x : String) (xs : List String) :
    ∃ t, goJoin sep (x :: xs) = x ++ t := by
  cases xs with
  | nil =>
      refine ⟨"", ?_⟩
      simp [goJoin, String.append_empty]
  | cons y ys =>
      refine ⟨sep ++ goJoin sep (y :: ys), ?_⟩
      simp [goJoin, String.append_assoc]

theorem goJoin_mem (sep x : String) : ∀ l1 l2 : List String,
    ∃ a b, goJoin sep (l1 ++ x :: l2) = a ++ x ++ b := by
  intro l1
  induction l1 with
  | nil =>
      intro l2
      obtain ⟨t, ht⟩ := goJoin_head sep x l2
      exact ⟨"", t, by simpa [String.empty_append] using ht⟩
  | cons z zs ih =>
      intro l2
      obtain ⟨a, b, hab⟩ := ih l2
      refine ⟨z ++ sep ++ a, b, ?_⟩
      rw [List.cons_append, goJoin_cons_of_ne sep z (zs ++ x :: l2) (by simp), hab]
      simp [String.append_assoc]

theorem goJoin_adjacent (sep x y : String) : ∀ l1 l2 : List String,
    ∃ a b, goJoin sep (l1 ++ x :: y :: l2) = a ++ (x ++ sep ++ y) ++ b := by
  intro l1
  induction l1 with
  | nil =>
      intro l2
      cases l2 with
      | nil =>
          refine ⟨"", "", ?_⟩
          simp [goJoin, String.empty_append, String.append_empty]
      | cons z zs =>
          refine ⟨"", sep ++ goJoin sep (z :: zs), ?_⟩
          simp [goJoin, String.empty_append, String.append_assoc]
  | cons w ws ih =>
      intro l2
      obtain ⟨a, b, hab⟩ := ih l2
      refine ⟨w ++ sep ++ a, b, ?_⟩
      rw [List.cons_append, goJoin_cons_of_ne sep w (ws ++ x :: y :: l2) (by simp), hab]
      simp [String.append_assoc]

theorem GetResult.isErr_true {α : Type} {res : GetResult α} (h : res.isErr = true) :
    ∃ e, res = .err e := by
  cases res with
  | ok a => simp [GetResult.isErr] at h
  | notFound => simp [GetResult.isErr] at h
  | err e => exact ⟨e, rfl⟩

theorem checkDeployments_err1 (v : ResourceView) (e : String)
    (h : v.deployments operatorName = .err e) (r m : List String) :
    checkDeployments v r m = Except.error e := by
  simp [checkDeployments, checkDeployment_err v _ _ e h]

theorem checkDeployments_err2 (v : ResourceView) (e : String)
    (hop : (v.deployments operatorName).isErr = false)
    (h : v.deployments lighthouseAgentName = .err e) (r m : List String) :
    checkDeployments v r m = Except.error e := by
  simp [checkDeployments, checkDeployment_delta v _ _ hop, checkDeployment_err v _ _ e h]

theorem checkDeployments_err3 (v : ResourceView) (e : String)
    (hop : (v.deployments operatorName).isErr = false)
    (hag : (v.deployments lighthouseAgentName).isErr = false)
    (h : v.deployments lighthouseCoreDNSName = .err e) (r m : List String) :
    checkDeployments v r m = Except.error e := by
  simp [checkDeployments, checkDeployment_delta v _ _ hop, checkDeployment_delta v _ _ hag,
    checkDeployment_err v _ _ e h]

theorem checkDaemonSets_err1 (v : ResourceView) (e : String)
    (h : v.daemonSets gatewayName = .err e) (r m : List String) :
    checkDaemonSets v r m = Except.error e := by
  simp [checkDaemonSets, checkGatewayDaemonSet_err v e h]

theorem checkDaemonSets_err2 (v : ResourceView) (e : String)
    (hgw : (v.daemonSets gatewayName).isErr = false)
    (h : v.daemonSets routeAgentName = .err e) (r m : List String) :
    checkDaemonSets v r m = Except.error e := by
  simp [checkDaemonSets, checkGatewayDaemonSet_delta v hgw, checkRouteAgentDaemonSet_err v e h]

theorem checkOptionalDeployments_err1 (v : ResourceView) (submariner : Submariner)
    (e : String) (hc : submariner.globalCIDR ≠ "")
    (h : v.deployments globalnetName = .err e) (r m : List String) :
    checkOptionalDeployments v submariner r m = Except.error e := by
  simp [checkOptionalDeployments, hc, checkDeployment_err v _ _ e h]

theorem checkOptionalDeployments_err2 (v : ResourceView) (submariner : Submariner)
    (e : String)
    (hord : submariner.globalCIDR = "" ∨ (v.deployments globalnetName).isErr = false)
    (hp : submariner.networkPlugin = networkPluginOVNKubernetes)
    (h : v.deployments networkPluginSyncerName = .err e) (r m : List String) :
    checkOptionalDeployments v submariner r m = Except.error e := by
  cases hord with
  | inl hc => simp [checkOptionalDeployments, hc, hp, checkDeployment_err v _ _ e h]
  | inr hgn =>
      by_cases hc : submariner.globalCIDR = ""
      · simp [checkOptionalDeployments, hc, hp, checkDeployment_err v _ _ e h]
      · simp [checkOptionalDeployments, hc, hp, checkDeployment_delta v _ _ hgn,
          checkDeployment_err v _ _ e h]

theorem sync_err_sub (v : ResourceView) (e : String) (h : v.subscription = .err e) :
    sync v = Except.error e := by
  simp [sync, h]

theorem sync_err_deployments (v : ResourceView) (sub : Subscription) (e : String)
    (hsub : v.subscription = .ok sub)
    (h : ∀ r m, checkDeployments v r m = Except.error e) :
    sync v = Except.error e := by
  simp [sync, hsub, h]

theorem sync_err_daemonSets (v : ResourceView) (sub : Subscription) (e : String)
    (hsub : v.subscription = .ok sub)
    (hop : (v.deployments operatorName).isErr = false)
    (hag : (v.deployments lighthouseAgentName).isErr = false)
    (hcore : (v.deployments lighthouseCoreDNSName).isErr = false)
    (h : ∀ r m, checkDaemonSets v r m = Except.error e) :
    sync v = Except.error e := by
  simp [sync, hsub, checkDeployments_delta v hop hag hcore, h]

theorem sync_err_submariner (v : ResourceView) (sub : Subscription) (e : String)
    (hsub : v.subscription = .ok sub)
    (hop : (v.deployments operatorName).isErr = false)
    (hag : (v.deployments lighthouseAgentName).isErr = false)
    (hcore : (v.deployments lighthouseCoreDNSName).isErr = false)
    (hgw : (v.daemonSets gatewayName).isErr = false)
    (hra : (v.daemonSets routeAgentName).isErr = false)
    (h : v.submariner = .err e) :
    sync v = Except.error e := by
  simp [sync, hsub, checkDeployments_delta v hop hag hcore, checkDaemonSets_delta v hgw hra, h]

theorem sync_err_optional (v : ResourceView) (sub : Subscription)
    (submariner : Submariner) (e : String)
    (hsub : v.subscription = .ok sub)
    (hop : (v.deployments operatorName).isErr = false)
    (hag : (v.deployments lighthouseAgentName).isErr = false)
    (hcore : (v.deployments lighthouseCoreDNSName).isErr = false)
    (hgw : (v.daemonSets gatewayName).isErr = false)
    (hra : (v.daemonSets routeAgentName).isErr = false)
    (hsm : v.submariner = .ok submariner)
    (h : ∀ r m, checkOptionalDeployments v submariner r m = Except.error e) :
    sync v = Except.error e := by
  simp [sync, hsub, checkDeployments_delta v hop hag hcore, checkDaemonSets_delta v hgw hra,
    hsm, h]

theorem deploymentDelta_length (res : GetResult Deployment) (name reasonName : String) :
    (deploymentDelta res name reasonName).1.length =
      (deploymentDelta res name reasonName).2.length := by
  cases res with
  | ok deployment => by_cases h : deployment.availableReplicas == 0 <;> simp [deploymentDelta, h]
  | notFound => simp [deploymentDelta]
  | err e => simp [deploymentDelta]

theorem gatewayDelta_length (res : GetResult DaemonSet) :
    (gatewayDelta res).1.length = (gatewayDelta res).2.length := by
  cases res with
  | ok gateways =>
      by_cases h1 : gateways.desiredNumberScheduled == 0 <;>
        by_cases h2 : gateways.numberUnavailable != 0 <;> simp [gatewayDelta, h1, h2]
  | notFound => simp [gatewayDelta]
  | err e => simp [gatewayDelta]

theorem routeAgentDelta_length (res : GetResult DaemonSet) :
    (routeAgentDelta res).1.length = (routeAgentDelta res).2.length := by
  cases res with
  | ok routeAgent => by_cases h : routeAgent.numberUnavailable != 0 <;> simp [routeAgentDelta, h]
  | notFound => simp [routeAgentDelta]
  | err e => simp [routeAgentDelta]

theorem optionalDelta_length (v : ResourceView) (submariner : Submariner) :
    (optionalDelta v submariner).1.length = (optionalDelta v submariner).2.length := by
  by_cases hc : submariner.globalCIDR != "" <;>
    by_cases hp : submariner.networkPlugin == networkPluginOVNKubernetes <;>
      simp [optionalDelta, pairApp, hc, hp, deploymentDelta_length]

theorem csvDelta_length (sub : Subscription) :
    (csvDelta sub).1.length = (csvDelta sub).2.length := by
  by_cases h : sub.installedCSV == "" <;> simp [csvDelta, h]

theorem totalDelta_length (v : ResourceView) (sub : Subscription)
    (submariner : Submariner) :
    (totalDelta v sub submariner).1.length = (totalDelta v sub submariner).2.length := by
  simp [totalDelta, pairApp, csvDelta_length, deploymentDelta_length, gatewayDelta_length,
    routeAgentDelta_length, optionalDelta_length]

theorem synthesizeCondition_degraded (installedCSV : String) (r m : List String)
    (h : r ≠ []) :
    synthesizeCondition installedCSV r m =
      { type := submarinerAgentDegraded
        status := true
        reason := goJoin "," r
        message := goJoin "\n" m } := by
  cases r with
  | nil => exact absurd rfl h
  | cons x xs => simp [synthesizeCondition]

theorem synthesizeCondition_healthy (installedCSV : String) (m : List String) :
    synthesizeCondition installedCSV [] m =
      { type := submarinerAgentDegraded
        status := false
        reason := "SubmarinerAgentDeployed"
        message := "Submariner (" ++ installedCSV ++ ") is deployed on managed cluster." } := by
  simp [synthesizeCondition]

theorem specSubscriptionReasons_eq (sub : Subscription) :
    (csvDelta sub).1 = specSubscriptionReasons sub := by
  by_cases h : sub.installedCSV == "" <;> simp [csvDelta, specSubscriptionReasons, h]

theorem specDeploymentReasons_eq (res : GetResult Deployment) (name reasonName : String) :
    (deploymentDelta res name reasonName).1 = specDeploymentReasons res reasonName := by
  cases res with
  | ok deployment =>
      by_cases h : deployment.availableReplicas == 0 <;>
        simp [deploymentDelta, specDeploymentReasons, h]
  | notFound => simp [deploymentDelta, specDeploymentReasons]
  | err e => simp [deploymentDelta, specDeploymentReasons]

theorem specGatewayReasons_eq (res : GetResult DaemonSet) :
    (gatewayDelta res).1 = specGatewayReasons res := by
  cases res with
  | ok gateways =>
      by_cases h1 : gateways.desiredNumberScheduled == 0 <;>
        by_cases h2 : gateways.numberUnavailable != 0 <;>
          simp [gatewayDelta, specGatewayReasons, h1, h2]
  | notFound => simp [gatewayDelta, specGatewayReasons]
  | err e => simp [gatewayDelta, specGatewayReasons]

theorem specRouteAgentReasons_eq (res : GetResult DaemonSet) :
    (routeAgentDelta res).1 = specRouteAgentReasons res := by
  cases res with
  | ok routeAgent =>
      by_cases h : routeAgent.numberUnavailable != 0 <;>
        simp [routeAgentDelta, specRouteAgentReasons, h]
  | notFound => simp [routeAgentDelta, specRouteAgentReasons]
  | err e => simp [routeAgentDelta, specRouteAgentReasons]

theorem specConditionalReasons_eq (v : ResourceView) (submariner : Submariner) :
    (optionalDelta v submariner).1 = specConditionalReasons v submariner := by
  by_cases hc : submariner.globalCIDR != "" <;>
    by_cases hp : submariner.networkPlugin == networkPluginOVNKubernetes <;>
      simp [optionalDelta, pairApp, specConditionalReasons, hc, hp, specDeploymentReasons_eq]

theorem totalDelta_fst (v : ResourceView) (sub : Subscription) (submariner : Submariner) :
    (totalDelta v sub submariner).1 = specPipelineReasons v sub submariner := by
  simp [totalDelta, pairApp, specPipelineReasons, specSubscriptionReasons_eq,
    specDeploymentReasons_eq, specGatewayReasons_eq, specRouteAgentReasons_eq,
    specConditionalReasons_eq, List.append_assoc]

/-- Claim C2: for every signal list, the synthesized composite condition has
status True exactly when the signal list is non-empty; when non-empty the
reason and message are the comma-joined reasons and newline-joined messages,
and when empty the fixed healthy condition (status False) is kept. -/
theorem claim2_status_iff_signals (installedCSV : String) (reasons messages : List String) :
    ((synthesizeCondition installedCSV reasons messages).status = true ↔ reasons ≠ []) ∧
    (reasons ≠ [] →
      (synthesizeCondition installedCSV reasons messages).reason = goJoin "," reasons ∧
      (synthesizeCondition installedCSV reasons messages).message = goJoin "\n" messages) ∧
    (reasons = [] →
      synthesizeCondition installedCSV reasons messages =
        { type := submarinerAgentDegraded
          status := false
          reason := "SubmarinerAgentDeployed"
          message := "Submariner (" ++ installedCSV ++ ") is deployed on managed cluster." }) := by
  cases reasons with
  | nil => simp [synthesizeCondition]
  | cons x xs => simp [synthesizeCondition]

/-- Witness for claim C2 at a concrete non-empty signal list. -/
theorem claim2_witness :
    (synthesizeCondition "v" ["A"] ["m"]).reason = goJoin "," ["A"] ∧
    (synthesizeCondition "v" ["A"] ["m"]).message = goJoin "\n" ["m"] :=
  (claim2_status_iff_signals "v" ["A"] ["m"]).2.1 (by decide)

/-- Claim C5: a missing Subscription exits the pass silently at the top before
any checks run, and a missing Submariner resource exits silently after the
required checks; in both cases no error is returned and no publish happens
(the result is ok none, not ok (some c) and not error). -/
theorem claim5_silent_exit (v : ResourceView) :
    (v.subscription = .notFound → sync v = Except.ok none) ∧
    (∀ sub, v.subscription = .ok sub →
      (v.deployments operatorName).isErr = false →
      (v.deployments lighthouseAgentName).isErr = false →
      (v.deployments lighthouseCoreDNSName).isErr = false →
      (v.daemonSets gatewayName).isErr = false →
      (v.daemonSets routeAgentName).isErr = false →
      v.submariner = .notFound → sync v = Except.ok none) := by
  constructor
  · intro h
    simp [sync, h]
  · intro sub hsub hop hag hcore hgw hra hsm
    simp [sync, hsub, checkDeployments_delta v hop hag hcore,
      checkDaemonSets_delta v hgw hra, hsm]

/-- Witness for claim C5 at snapshots with a missing Subscription and a
missing Submariner resource. -/
theorem claim5_witness :
    sync missingSubView = Except.ok none ∧ sync missingSubmarinerView = Except.ok none :=
  ⟨(claim5_silent_exit missingSubView).1 rfl,
   (claim5_silent_exit missingSubmarinerView).2 healthySub rfl (by decide) (by decide)
     (by decide) (by decide) (by decide) rfl⟩

/-- Claim C6: with an empty global CIDR the Globalnet deployment check never
runs, so neither NoGlobalnetDeployment nor NoGlobalnetAvailable is appended,
whatever the state of the Globalnet deployment. -/
theorem claim6_no_globalnet_check (v : ResourceView) (submariner : Submariner)
    (hc : submariner.globalCIDR = "") (r m r2 m2 : List String)
    (h : checkOptionalDeployments v submariner r m = Except.ok (r2, m2)) :
    ∃ dr, r2 = r ++ dr ∧ "NoGlobalnetDeployment" ∉ dr ∧ "NoGlobalnetAvailable" ∉ dr := by
  have hgen : ∀ res : GetResult Deployment,
      "NoGlobalnetDeployment" ∉
        (deploymentDelta res networkPluginSyncerName "NetworkPluginSyncer").1 ∧
      "NoGlobalnetAvailable" ∉
        (deploymentDelta res networkPluginSyncerName "NetworkPluginSyncer").1 := by
    intro res
    cases res with
    | ok d => by_cases hz : d.availableReplicas == 0 <;> simp [deploymentDelta, hz]
    | notFound => simp [deploymentDelta]
    | err e => simp [deploymentDelta]
  by_cases hp : submariner.networkPlugin = networkPluginOVNKubernetes
  · by_cases he : (v.deployments networkPluginSyncerName).isErr = true
    · cases hres : v.deployments networkPluginSyncerName with
      | ok d => rw [hres] at he; simp [GetResult.isErr] at he
      | notFound => rw [hres] at he; simp [GetResult.isErr] at he
      | err e =>
          rw [checkOptionalDeployments_err2 v submariner e (Or.inl hc) hp hres] at h
          simp at h
    · have he' : (v.deployments networkPluginSyncerName).isErr = false := by
        simpa using he
      rw [checkOptionalDeployments_delta v submariner (fun hne => absurd hc hne)
        (fun _ => he')] at h
      simp only [Except.ok.injEq, Prod.mk.injEq] at h
      refine ⟨(optionalDelta v submariner).1, h.1.symm, ?_, ?_⟩
      · simp [optionalDelta, pairApp, hc, hp]
        exact (hgen (v.deployments networkPluginSyncerName)).1
      · simp [optionalDelta, pairApp, hc, hp]
        exact (hgen (v.deployments networkPluginSyncerName)).2
  · rw [checkOptionalDeployments_delta v submariner (fun hne => absurd hc hne)
      (fun hp2 => absurd hp2 hp)] at h
    simp only [Except.ok.injEq, Prod.mk.injEq] at h
    refine ⟨(optionalDelta v submariner).1, h.1.symm, ?_, ?_⟩
    · simp [optionalDelta, pairApp, hc, hp]
    · simp [optionalDelta, pairApp, hc, hp]

/-- Witness for claim C6: both conditional deployments are absent, the global
CIDR is empty and the plugin is OVNKubernetes; only the NetworkPluginSyncer
signal appears. -/
theorem claim6_witness :
    ∃ dr, ["NoNetworkPluginSyncerDeployment"] = [] ++ dr ∧
      "NoGlobalnetDeployment" ∉ dr ∧ "NoGlobalnetAvailable" ∉ dr :=
  claim6_no_globalnet_check noOptionalView ovnSubmariner rfl [] []
    ["NoNetworkPluginSyncerDeployment"]
    ["The submariner networkplugin syncer deployment does not exist"] rfl

/-- Claim C10: a gateway daemonset that exists with zero desired-scheduled
pods and a non-zero unavailable count yields both NoScheduledGateways and
GatewaysUnavailable in one pass, in that order. -/
theorem claim10_gateway_both_signals (v : ResourceView) (gateways : DaemonSet)
    (hres : v.daemonSets gatewayName = .ok gateways)
    (h0 : gateways.desiredNumberScheduled = 0) (hu : gateways.numberUnavailable ≠ 0)
    (r m : List String) :
    checkGatewayDaemonSet v r m =
      Except.ok (r ++ ["NoScheduledGateways", "GatewaysUnavailable"],
        m ++ ["There are no nodes to run the gateways",
          "There are " ++ toString gateways.numberUnavailable ++ " unavailable gateways"]) := by
  simp [checkGatewayDaemonSet, hres, h0, hu]

/-- Witness for claim C10 at a concrete daemonset with desired 0 and one
unavailable pod. -/
theorem claim10_witness :
    checkGatewayDaemonSet gatewayTroubleView [] [] =
      Except.ok ([] ++ ["NoScheduledGateways", "GatewaysUnavailable"],
        [] ++ ["There are no nodes to run the gateways",
          "There are " ++ toString (1 : Int) ++ " unavailable gateways"]) :=
  claim10_gateway_both_signals gatewayTroubleView
    { desiredNumberScheduled := 0, numberUnavailable := 1 } rfl rfl (by decide) [] []

/-- Claim C1 counterexample: on a fully healthy snapshot with installed
version submariner.v0.8.1 the synthesized condition has status False and a
message containing the version, but its reason is not the string "Deployed"
(the code uses "SubmarinerAgentDeployed"). -/
theorem claim1_counterexample :
    ∃ cond, sync healthyView = Except.ok (some cond) ∧
      cond.status = false ∧
      (∃ a b, cond.message = a ++ "submariner.v0.8.1" ++ b) ∧
      cond.reason ≠ "Deployed" := by
  refine ⟨_, rfl, rfl, ⟨"Submariner (", ") is deployed on managed cluster.", by decide⟩,
    by decide⟩

/-- Claim C1 (amended): when the Subscription reports a non-empty installed
version and all required deployments, both daemonsets, and all applicable
conditional deployments are present and available, the synthesized condition
has status False, reason "SubmarinerAgentDeployed", and a message containing
the installed version string. -/
theorem claim1_healthy_deployed (v : ResourceView) (sub : Subscription)
    (submariner : Submariner)
    (hsub : v.subscription = .ok sub)
    (hcsv : sub.installedCSV ≠ "")
    (hsm : v.submariner = .ok submariner)
    (dop : Deployment) (hop : v.deployments operatorName = .ok dop)
    (hop0 : dop.availableReplicas ≠ 0)
    (dag : Deployment) (hag : v.deployments lighthouseAgentName = .ok dag)
    (hag0 : dag.availableReplicas ≠ 0)
    (dcore : Deployment) (hcore : v.deployments lighthouseCoreDNSName = .ok dcore)
    (hcore0 : dcore.availableReplicas ≠ 0)
    (gw : DaemonSet) (hgw : v.daemonSets gatewayName = .ok gw)
    (hgw1 : gw.desiredNumberScheduled ≠ 0) (hgw2 : gw.numberUnavailable = 0)
    (ra : DaemonSet) (hra : v.daemonSets routeAgentName = .ok ra)
    (hra1 : ra.numberUnavailable = 0)
    (hgn : submariner.globalCIDR ≠ "" →
      ∃ d, v.deployments globalnetName = .ok d ∧ d.availableReplicas ≠ 0)
    (hnps : submariner.networkPlugin = networkPluginOVNKubernetes →
      ∃ d, v.deployments networkPluginSyncerName = .ok d ∧ d.availableReplicas ≠ 0) :
    sync v = Except.ok (some
      { type := submarinerAgentDegraded
        status := false
        reason := "SubmarinerAgentDeployed"
        message := "Submariner (" ++ sub.installedCSV ++ ") is deployed on managed cluster." }) ∧
    ∃ a b, ("Submariner (" ++ sub.installedCSV ++ ") is deployed on managed cluster." : String) =
      a ++ sub.installedCSV ++ b := by
  have hopt : optionalDelta v submariner = ([], []) := by
    by_cases hc : submariner.globalCIDR = ""
    · by_cases hpp : submariner.networkPlugin = networkPluginOVNKubernetes
      · obtain ⟨d, hd, hd0⟩ := hnps hpp
        simp [optionalDelta, pairApp, hc, hpp, deploymentDelta, hd, hd0]
      · simp [optionalDelta, pairApp, hc, hpp]
    · obtain ⟨d, hd, hd0⟩ := hgn hc
      by_cases hpp : submariner.networkPlugin = networkPluginOVNKubernetes
      · obtain ⟨d2, hd2, hd20⟩ := hnps hpp
        simp [optionalDelta, pairApp, hc, hpp, deploymentDelta, hd, hd0, hd2, hd20]
      · simp [optionalDelta, pairApp, hc, hpp, deploymentDelta, hd, hd0]
  have hRM : totalDelta v sub submariner = ([], []) := by
    simp [totalDelta, pairApp, csvDelta, hcsv, deploymentDelta, hop, hop0, hag, hag0,
      hcore, hcore0, gatewayDelta, hgw, hgw1, hgw2, routeAgentDelta, hra, hra1, hopt]
  constructor
  · rw [sync_complete v sub submariner hsub hsm (by rw [hop]; rfl) (by rw [hag]; rfl)
      (by rw [hcore]; rfl) (by rw [hgw]; rfl) (by rw [hra]; rfl)
      (fun hne => by obtain ⟨d, hd, _⟩ := hgn hne; rw [hd]; rfl)
      (fun hpp => by obtain ⟨d, hd, _⟩ := hnps hpp; rw [hd]; rfl), hRM]
    rw [synthesizeCondition_healthy]
  · exact ⟨"Submariner (", ") is deployed on managed cluster.", rfl⟩

/-- Witness for claim C1 at the fully healthy snapshot. -/
theorem claim1_witness :
    sync healthyView = Except.ok (some
      { type := submarinerAgentDegraded
        status := false
        reason := "SubmarinerAgentDeployed"
        message := "Submariner (" ++ healthySub.installedCSV ++
          ") is deployed on managed cluster." }) ∧
    ∃ a b, ("Submariner (" ++ healthySub.installedCSV ++
        ") is deployed on managed cluster." : String) =
      a ++ healthySub.installedCSV ++ b :=
  claim1_healthy_deployed healthyView healthySub plainSubmariner rfl (by decide) rfl
    { availableReplicas := 1 } rfl (by decide)
    { availableReplicas := 1 } rfl (by decide)
    { availableReplicas := 1 } rfl (by decide)
    { desiredNumberScheduled := 1, numberUnavailable := 0 } rfl (by decide) rfl
    { desiredNumberScheduled := 1, numberUnavailable := 0 } rfl rfl
    (fun hne => absurd rfl hne) (fun hpp => absurd hpp (by decide))

/-- Claim C7: when the installed CSV of the Subscription is empty the pipeline
emits CSVNotInstalled first, with a message naming the starting CSV (or the
literal "default" when unspecified) and the channel (or "default"). -/
theorem claim7_csv_not_installed (v : ResourceView) (sub : Subscription)
    (submariner : Submariner)
    (hsub : v.subscription = .ok sub)
    (hsm : v.submariner = .ok submariner)
    (hop : (v.deployments operatorName).isErr = false)
    (hag : (v.deployments lighthouseAgentName).isErr = false)
    (hcore : (v.deployments lighthouseCoreDNSName).isErr = false)
    (hgw : (v.daemonSets gatewayName).isErr = false)
    (hra : (v.daemonSets routeAgentName).isErr = false)
    (hgn : submariner.globalCIDR ≠ "" → (v.deployments globalnetName).isErr = false)
    (hnps : submariner.networkPlugin = networkPluginOVNKubernetes →
      (v.deployments networkPluginSyncerName).isErr = false)
    (hcsv : sub.installedCSV = "") :
    ∃ cond, sync v = Except.ok (some cond) ∧ cond.status = true ∧
      (∃ t, cond.reason = "CSVNotInstalled" ++ t) ∧
      (∃ u, cond.message =
        "The submariner-operator CSV (" ++
          (if sub.startingCSV == "" then "default" else sub.startingCSV) ++
          ") is not installed from channel (" ++
          (if sub.channel == "" then "default" else sub.channel) ++
          ") in catalog source (" ++ sub.catalogSourceNamespace ++ "/" ++
          sub.catalogSource ++ ")" ++ u) := by
  rw [sync_complete v sub submariner hsub hsm hop hag hcore hgw hra hgn hnps]
  have htR : (totalDelta v sub submariner).1 =
      "CSVNotInstalled" ::
        ((deploymentDelta (v.deployments operatorName) operatorName "Operator").1 ++
          ((deploymentDelta (v.deployments lighthouseAgentName) lighthouseAgentName
              "LighthouseAgent").1 ++
            ((deploymentDelta (v.deployments lighthouseCoreDNSName) lighthouseCoreDNSName
                "LighthouseCoreDNS").1 ++
              ((gatewayDelta (v.daemonSets gatewayName)).1 ++
                ((routeAgentDelta (v.daemonSets routeAgentName)).1 ++
                  (optionalDelta v submariner).1))))) := by
    simp [totalDelta, pairApp, csvDelta, hcsv]
  have htM : (totalDelta v sub submariner).2 =
      ("The submariner-operator CSV (" ++
        (if sub.startingCSV == "" then "default" else sub.startingCSV) ++
        ") is not installed from channel (" ++
        (if sub.channel == "" then "default" else sub.channel) ++
        ") in catalog source (" ++ sub.catalogSourceNamespace ++ "/" ++
        sub.catalogSource ++ ")") ::
        ((deploymentDelta (v.deployments operatorName) operatorName "Operator").2 ++
          ((deploymentDelta (v.deployments lighthouseAgentName) lighthouseAgentName
              "LighthouseAgent").2 ++
            ((deploymentDelta (v.deployments lighthouseCoreDNSName) lighthouseCoreDNSName
                "LighthouseCoreDNS").2 ++
              ((gatewayDelta (v.daemonSets gatewayName)).2 ++
                ((routeAgentDelta (v.daemonSets routeAgentName)).2 ++
                  (optionalDelta v submariner).2))))) := by
    simp [totalDelta, pairApp, csvDelta, hcsv]
  have hne : (totalDelta v sub submariner).1 ≠ [] := by rw [htR]; simp
  rw [synthesizeCondition_degraded _ _ _ hne]
  refine ⟨_, rfl, rfl, ?_, ?_⟩
  · rw [htR]
    exact goJoin_head "," _ _
  · rw [htM]
    exact goJoin_head "\n" _ _

/-- Witness for claim C7 at the snapshot with an uninstalled Subscription. -/
theorem claim7_witness :
    ∃ cond, sync noCSVView = Except.ok (some cond) ∧ cond.status = true ∧
      (∃ t, cond.reason = "CSVNotInstalled" ++ t) ∧
      (∃ u, cond.message =
        "The submariner-operator CSV (" ++
          (if uninstalledSub.startingCSV == "" then "default" else uninstalledSub.startingCSV) ++
          ") is not installed from channel (" ++
          (if uninstalledSub.channel == "" then "default" else uninstalledSub.channel) ++
          ") in catalog source (" ++ uninstalledSub.catalogSourceNamespace ++ "/" ++
          uninstalledSub.catalogSource ++ ")" ++ u) :=
  claim7_csv_not_installed noCSVView uninstalledSub plainSubmariner rfl rfl (by decide)
    (by decide) (by decide) (by decide) (by decide) (fun hne => absurd rfl hne)
    (fun hpp => absurd hpp (by decide)) rfl

/-- Claim C4: when the operator deployment is not found the composite reason
contains NoOperatorDeployment; when additionally the lighthouse agent
deployment exists with zero available replicas, the reason contains
NoOperatorDeployment and NoLighthouseAgentAvailable joined by a comma, in
that order. -/
theorem claim4_operator_absent (v : ResourceView) (sub : Subscription)
    (submariner : Submariner)
    (hsub : v.subscription = .ok sub)
    (hsm : v.submariner = .ok submariner)
    (hopNF : v.deployments operatorName = .notFound)
    (hag : (v.deployments lighthouseAgentName).isErr = false)
    (hcore : (v.deployments lighthouseCoreDNSName).isErr = false)
    (hgw : (v.daemonSets gatewayName).isErr = false)
    (hra : (v.daemonSets routeAgentName).isErr = false)
    (hgn : submariner.globalCIDR ≠ "" → (v.deployments globalnetName).isErr = false)
    (hnps : submariner.networkPlugin = networkPluginOVNKubernetes →
      (v.deployments networkPluginSyncerName).isErr = false) :
    ∃ cond, sync v = Except.ok (some cond) ∧
      (∃ a b, cond.reason = a ++ "NoOperatorDeployment" ++ b) ∧
      (∀ dag, v.deployments lighthouseAgentName = .ok dag → dag.availableReplicas = 0 →
        ∃ a b, cond.reason =
          a ++ ("NoOperatorDeployment" ++ "," ++ "NoLighthouseAgentAvailable") ++ b) := by
  rw [sync_complete v sub submariner hsub hsm (by rw [hopNF]; rfl) hag hcore hgw hra hgn hnps]
  have htR : (totalDelta v sub submariner).1 =
      (csvDelta sub).1 ++
        "NoOperatorDeployment" ::
          ((deploymentDelta (v.deployments lighthouseAgentName) lighthouseAgentName
              "LighthouseAgent").1 ++
            ((deploymentDelta (v.deployments lighthouseCoreDNSName) lighthouseCoreDNSName
                "LighthouseCoreDNS").1 ++
              ((gatewayDelta (v.daemonSets gatewayName)).1 ++
                ((routeAgentDelta (v.daemonSets routeAgentName)).1 ++
                  (optionalDelta v submariner).1)))) := by
    simp [totalDelta, pairApp, deploymentDelta, hopNF, List.append_assoc]
  have hne : (totalDelta v sub submariner).1 ≠ [] := by
    rw [htR]
    simp
  rw [synthesizeCondition_degraded _ _ _ hne]
  refine ⟨_, rfl, ?_, ?_⟩
  · rw [htR]
    exact goJoin_mem "," "NoOperatorDeployment" (csvDelta sub).1 _
  · intro dag hdag hdag0
    have hagd : (deploymentDelta (v.deployments lighthouseAgentName) lighthouseAgentName
        "LighthouseAgent").1 = ["NoLighthouseAgentAvailable"] := by
      simp [deploymentDelta, hdag, hdag0]
    rw [htR, hagd, List.singleton_append]
    exact goJoin_adjacent "," "NoOperatorDeployment" "NoLighthouseAgentAvailable"
      (csvDelta sub).1 _

/-- Witness for claim C4 at the snapshot with a missing operator deployment
and a lighthouse agent deployment with zero available replicas. -/
theorem claim4_witness :
    ∃ cond, sync degradedView = Except.ok (some cond) ∧
      (∃ a b, cond.reason = a ++ "NoOperatorDeployment" ++ b) ∧
      (∀ dag, degradedView.deployments lighthouseAgentName = .ok dag →
        dag.availableReplicas = 0 →
        ∃ a b, cond.reason =
          a ++ ("NoOperatorDeployment" ++ "," ++ "NoLighthouseAgentAvailable") ++ b) :=
  claim4_operator_absent degradedView healthySub plainSubmariner rfl rfl rfl (by decide)
    (by decide) (by decide) (by decide) (fun hne => absurd rfl hne)
    (fun hpp => absurd hpp (by decide))

/-- Claim C8: the pass is deterministic (two runs on the same snapshot give
the same result) and on a completed pass the published condition is the
synthesis of exactly the reason codes in the fixed pipeline order of spec
section 4.1. -/
theorem claim8_deterministic_order (v : ResourceView) (sub : Subscription)
    (submariner : Submariner)
    (hsub : v.subscription = .ok sub)
    (hsm : v.submariner = .ok submariner)
    (hop : (v.deployments operatorName).isErr = false)
    (hag : (v.deployments lighthouseAgentName).isErr = false)
    (hcore : (v.deployments lighthouseCoreDNSName).isErr = false)
    (hgw : (v.daemonSets gatewayName).isErr = false)
    (hra : (v.daemonSets routeAgentName).isErr = false)
    (hgn : submariner.globalCIDR ≠ "" → (v.deployments globalnetName).isErr = false)
    (hnps : submariner.networkPlugin = networkPluginOVNKubernetes →
      (v.deployments networkPluginSyncerName).isErr = false) :
    sync v = sync v ∧
    ∃ messages, sync v = Except.ok (some (synthesizeCondition sub.installedCSV
      (specPipelineReasons v sub submariner) messages)) := by
  refine ⟨rfl, (totalDelta v sub submariner).2, ?_⟩
  rw [sync_complete v sub submariner hsub hsm hop hag hcore hgw hra hgn hnps,
    totalDelta_fst]

/-- Witness for claim C8 at the fully healthy snapshot. -/
theorem claim8_witness :
    sync healthyView = sync healthyView ∧
    ∃ messages, sync healthyView = Except.ok (some (synthesizeCondition
      healthySub.installedCSV (specPipelineReasons healthyView healthySub plainSubmariner)
      messages)) :=
  claim8_deterministic_order healthyView healthySub plainSubmariner rfl rfl (by decide)
    (by decide) (by decide) (by decide) (by decide) (fun hne => absurd rfl hne)
    (fun hpp => absurd hpp (by decide))

/-- Claim C3: any read error other than not-found aborts the pass at the point
it is reached: the error is returned unmodified (the result is error e, so no
condition is synthesized and no publish happens), whatever signals were
collected before it. -/
theorem claim3_read_error_aborts (v : ResourceView) (e : String) :
    (v.subscription = .err e → sync v = Except.error e) ∧
    (∀ sub, v.subscription = .ok sub →
      (v.deployments operatorName = .err e → sync v = Except.error e) ∧
      ((v.deployments operatorName).isErr = false →
        (v.deployments lighthouseAgentName = .err e → sync v = Except.error e) ∧
        ((v.deployments lighthouseAgentName).isErr = false →
          (v.deployments lighthouseCoreDNSName = .err e → sync v = Except.error e) ∧
          ((v.deployments lighthouseCoreDNSName).isErr = false →
            (v.daemonSets gatewayName = .err e → sync v = Except.error e) ∧
            ((v.daemonSets gatewayName).isErr = false →
              (v.daemonSets routeAgentName = .err e → sync v = Except.error e) ∧
              ((v.daemonSets routeAgentName).isErr = false →
                (v.submariner = .err e → sync v = Except.error e) ∧
                (∀ submariner, v.submariner = .ok submariner →
                  (submariner.globalCIDR ≠ "" → v.deployments globalnetName = .err e →
                    sync v = Except.error e) ∧
                  ((submariner.globalCIDR = "" ∨
                      (v.deployments globalnetName).isErr = false) →
                    submariner.networkPlugin = networkPluginOVNKubernetes →
                    v.deployments networkPluginSyncerName = .err e →
                    sync v = Except.error e)))))))) := by
  constructor
  · exact fun h => sync_err_sub v e h
  · intro sub hsub
    constructor
    · intro h
      exact sync_err_deployments v sub e hsub (checkDeployments_err1 v e h)
    · intro hop
      constructor
      · intro h
        exact sync_err_deployments v sub e hsub (checkDeployments_err2 v e hop h)
      · intro hag
        constructor
        · intro h
          exact sync_err_deployments v sub e hsub (checkDeployments_err3 v e hop hag h)
        · intro hcore
          constructor
          · intro h
            exact sync_err_daemonSets v sub e hsub hop hag hcore (checkDaemonSets_err1 v e h)
          · intro hgw
            constructor
            · intro h
              exact sync_err_daemonSets v sub e hsub hop hag hcore
                (checkDaemonSets_err2 v e hgw h)
            · intro hra
              constructor
              · intro h
                exact sync_err_submariner v sub e hsub hop hag hcore hgw hra h
              · intro submariner hsm
                constructor
                · intro hc h
                  exact sync_err_optional v sub submariner e hsub hop hag hcore hgw hra hsm
                    (checkOptionalDeployments_err1 v submariner e hc h)
                · intro hord hp h
                  exact sync_err_optional v sub submariner e hsub hop hag hcore hgw hra hsm
                    (checkOptionalDeployments_err2 v submariner e hord hp h)

/-- Witness for claim C3: a hard read error on the lighthouse coreDNS
deployment aborts the pass with that error even though the missing operator
deployment had already produced a degraded signal. -/
theorem claim3_witness : sync errMidView = Except.error "boom" :=
  ((((claim3_read_error_aborts errMidView "boom").2 healthySub rfl).2 (by decide)).2
    (by decide)).1 rfl

/-- Claim C9: every check step appends to the reason list and the message
list in lockstep: the Subscription install check (sync lines 99-114) appends
deltas of equal length, whenever a check function returns ok the new lists
extend the old ones by deltas of equal length, and at synthesis time sync
hands synthesizeCondition two lists of equal length (so the two lists always
have equal length and entry i of each was appended by the same step). -/
theorem claim9_lockstep (v : ResourceView) :
    (∀ sub, (csvDelta sub).1.length = (csvDelta sub).2.length) ∧
    (∀ name reasonName r m r2 m2,
      checkDeployment v name reasonName r m = Except.ok (r2, m2) →
      ∃ dr dm, r2 = r ++ dr ∧ m2 = m ++ dm ∧ dr.length = dm.length) ∧
    (∀ r m r2 m2, checkGatewayDaemonSet v r m = Except.ok (r2, m2) →
      ∃ dr dm, r2 = r ++ dr ∧ m2 = m ++ dm ∧ dr.length = dm.length) ∧
    (∀ r m r2 m2, checkRouteAgentDaemonSet v r m = Except.ok (r2, m2) →
      ∃ dr dm, r2 = r ++ dr ∧ m2 = m ++ dm ∧ dr.length = dm.length) ∧
    (∀ r m r2 m2, checkDeployments v r m = Except.ok (r2, m2) →
      ∃ dr dm, r2 = r ++ dr ∧ m2 = m ++ dm ∧ dr.length = dm.length) ∧
    (∀ r m r2 m2, checkDaemonSets v r m = Except.ok (r2, m2) →
      ∃ dr dm, r2 = r ++ dr ∧ m2 = m ++ dm ∧ dr.length = dm.length) ∧
    (∀ submariner r m r2 m2, checkOptionalDeployments v submariner r m = Except.ok (r2, m2) →
      ∃ dr dm, r2 = r ++ dr ∧ m2 = m ++ dm ∧ dr.length = dm.length) ∧
    (∀ sub submariner, v.subscription = .ok sub → v.submariner = .ok submariner →
      (v.deployments operatorName).isErr = false →
      (v.deployments lighthouseAgentName).isErr = false →
      (v.deployments lighthouseCoreDNSName).isErr = false →
      (v.daemonSets gatewayName).isErr = false →
      (v.daemonSets routeAgentName).isErr = false →
      (submariner.globalCIDR ≠ "" → (v.deployments globalnetName).isErr = false) →
      (submariner.networkPlugin = networkPluginOVNKubernetes →
        (v.deployments networkPluginSyncerName).isErr = false) →
      sync v = Except.ok (some (synthesizeCondition sub.installedCSV
        (totalDelta v sub submariner).1 (totalDelta v sub submariner).2)) ∧
      (totalDelta v sub submariner).1.length = (totalDelta v sub submariner).2.length) := by
  refine ⟨?_, ?_, ?_, ?_, ?_, ?_, ?_, ?_⟩
  · intro sub
    exact csvDelta_length sub
  · intro name reasonName r m r2 m2 h
    by_cases he : (v.deployments name).isErr = true
    · obtain ⟨e, he2⟩ := GetResult.isErr_true he
      rw [checkDeployment_err v name reasonName e he2] at h
      simp at h
    · rw [checkDeployment_delta v name reasonName (by simpa using he)] at h
      simp only [Except.ok.injEq, Prod.mk.injEq] at h
      exact ⟨_, _, h.1.symm, h.2.symm, deploymentDelta_length _ _ _⟩
  · intro r m r2 m2 h
    by_cases he : (v.daemonSets gatewayName).isErr = true
    · obtain ⟨e, he2⟩ := GetResult.isErr_true he
      rw [checkGatewayDaemonSet_err v e he2] at h
      simp at h
    · rw [checkGatewayDaemonSet_delta v (by simpa using he)] at h
      simp only [Except.ok.injEq, Prod.mk.injEq] at h
      exact ⟨_, _, h.1.symm, h.2.symm, gatewayDelta_length _⟩
  · intro r m r2 m2 h
    by_cases he : (v.daemonSets routeAgentName).isErr = true
    · obtain ⟨e, he2⟩ := GetResult.isErr_true he
      rw [checkRouteAgentDaemonSet_err v e he2] at h
      simp at h
    · rw [checkRouteAgentDaemonSet_delta v (by simpa using he)] at h
      simp only [Except.ok.injEq, Prod.mk.injEq] at h
      exact ⟨_, _, h.1.symm, h.2.symm, routeAgentDelta_length _⟩
  · intro r m r2 m2 h
    by_cases hop : (v.deployments operatorName).isErr = true
    · obtain ⟨e, he2⟩ := GetResult.isErr_true hop
      rw [checkDeployments_err1 v e he2] at h
      simp at h
    · by_cases hag : (v.deployments lighthouseAgentName).isErr = true
      · obtain ⟨e, he2⟩ := GetResult.isErr_true hag
        rw [checkDeployments_err2 v e (by simpa using hop) he2] at h
        simp at h
      · by_cases hcore : (v.deployments lighthouseCoreDNSName).isErr = true
        · obtain ⟨e, he2⟩ := GetResult.isErr_true hcore
          rw [checkDeployments_err3 v e (by simpa using hop) (by simpa using hag) he2] at h
          simp at h
        · rw [checkDeployments_delta v (by simpa using hop) (by simpa using hag)
            (by simpa using hcore)] at h
          simp only [Except.ok.injEq, Prod.mk.injEq] at h
          refine ⟨(deploymentDelta (v.deployments operatorName) operatorName "Operator").1 ++
              (deploymentDelta (v.deployments lighthouseAgentName) lighthouseAgentName
                "LighthouseAgent").1 ++
              (deploymentDelta (v.deployments lighthouseCoreDNSName) lighthouseCoreDNSName
                "LighthouseCoreDNS").1,
            (deploymentDelta (v.deployments operatorName) operatorName "Operator").2 ++
              (deploymentDelta (v.deployments lighthouseAgentName) lighthouseAgentName
                "LighthouseAgent").2 ++
              (deploymentDelta (v.deployments lighthouseCoreDNSName) lighthouseCoreDNSName
                "LighthouseCoreDNS").2, ?_, ?_, ?_⟩
          · rw [← h.1]
            simp [List.append_assoc]
          · rw [← h.2]
            simp [List.append_assoc]
          · simp [deploymentDelta_length]
  · intro r m r2 m2 h
    by_cases hgw : (v.daemonSets gatewayName).isErr = true
    · obtain ⟨e, he2⟩ := GetResult.isErr_true hgw
      rw [checkDaemonSets_err1 v e he2] at h
      simp at h
    · by_cases hra : (v.daemonSets routeAgentName).isErr = true
      · obtain ⟨e, he2⟩ := GetResult.isErr_true hra
        rw [checkDaemonSets_err2 v e (by simpa using hgw) he2] at h
        simp at h
      · rw [checkDaemonSets_delta v (by simpa using hgw) (by simpa using hra)] at h
        simp only [Except.ok.injEq, Prod.mk.injEq] at h
        refine ⟨(gatewayDelta (v.daemonSets gatewayName)).1 ++
            (routeAgentDelta (v.daemonSets routeAgentName)).1,
          (gatewayDelta (v.daemonSets gatewayName)).2 ++
            (routeAgentDelta (v.daemonSets routeAgentName)).2, ?_, ?_, ?_⟩
        · rw [← h.1]
          simp [List.append_assoc]
        · rw [← h.2]
          simp [List.append_assoc]
        · simp [gatewayDelta_length, routeAgentDelta_length]
  · intro submariner r m r2 m2 h
    by_cases hc : submariner.globalCIDR = ""
    · have hgn : submariner.globalCIDR ≠ "" → (v.deployments globalnetName).isErr = false :=
        fun hne => absurd hc hne
      by_cases hp : submariner.networkPlugin = networkPluginOVNKubernetes
      · by_cases hez : (v.deployments networkPluginSyncerName).isErr = true
        · obtain ⟨e, he2⟩ := GetResult.isErr_true hez
          rw [checkOptionalDeployments_err2 v submariner e (Or.inl hc) hp he2] at h
          simp at h
        · rw [checkOptionalDeployments_delta v submariner hgn
            (fun _ => by simpa using hez)] at h
          simp only [Except.ok.injEq, Prod.mk.injEq] at h
          exact ⟨_, _, h.1.symm, h.2.symm, optionalDelta_length v submariner⟩
      · rw [checkOptionalDeployments_delta v submariner hgn (fun hpp => absurd hpp hp)] at h
        simp only [Except.ok.injEq, Prod.mk.injEq] at h
        exact ⟨_, _, h.1.symm, h.2.symm, optionalDelta_length v submariner⟩
    · by_cases heg : (v.deployments globalnetName).isErr = true
      · obtain ⟨e, he2⟩ := GetResult.isErr_true heg
        rw [checkOptionalDeployments_err1 v submariner e hc he2] at h
        simp at h
      · have hgfalse : (v.deployments globalnetName).isErr = false := by simpa using heg
        by_cases hp : submariner.networkPlugin = networkPluginOVNKubernetes
        · by_cases hez : (v.deployments networkPluginSyncerName).isErr = true
          · obtain ⟨e, he2⟩ := GetResult.isErr_true hez
            rw [checkOptionalDeployments_err2 v submariner e (Or.inr hgfalse) hp he2] at h
            simp at h
          · rw [checkOptionalDeployments_delta v submariner (fun _ => hgfalse)
              (fun _ => by simpa using hez)] at h
            simp only [Except.ok.injEq, Prod.mk.injEq] at h
            exact ⟨_, _, h.1.symm, h.2.symm, optionalDelta_length v submariner⟩
        · rw [checkOptionalDeployments_delta v submariner (fun _ => hgfalse)
            (fun hpp => absurd hpp hp)] at h
          simp only [Except.ok.injEq, Prod.mk.injEq] at h
          exact ⟨_, _, h.1.symm, h.2.symm, optionalDelta_length v submariner⟩
  · intro sub submariner hsub hsm hop hag hcore hgw hra hgn hnps
    exact ⟨sync_complete v sub submariner hsub hsm hop hag hcore hgw hra hgn hnps,
      totalDelta_length v sub submariner⟩

/-- Witness for claim C9: the operator deployment check on the degraded
snapshot appends one reason and one message, and on the healthy snapshot the
lists handed to synthesizeCondition have equal length. -/
theorem claim9_witness :
    (∃ dr dm, ["NoOperatorDeployment"] = [] ++ dr ∧
      ["The submariner operator deployment does not exist"] = [] ++ dm ∧
      dr.length = dm.length) ∧
    (sync healthyView = Except.ok (some (synthesizeCondition healthySub.installedCSV
      (totalDelta healthyView healthySub plainSubmariner).1
      (totalDelta healthyView healthySub plainSubmariner).2)) ∧
    (totalDelta healthyView healthySub plainSubmariner).1.length =
      (totalDelta healthyView healthySub plainSubmariner).2.length) :=
  ⟨(claim9_lockstep degradedView).2.1 operatorName "Operator" [] []
      ["NoOperatorDeployment"] ["The submariner operator deployment does not exist"] rfl,
   (claim9_lockstep healthyView).2.2.2.2.2.2.2 healthySub plainSubmariner rfl rfl
      (by decide) (by decide) (by decide) (by decide) (by decide)
      (fun hne => absurd rfl hne) (fun hpp => absurd hpp (by decide))⟩

end SubmarinerAgent
